import Mathlib

/-!
Verification of the model-name resolution core and process flow of the
ecopilot repository (src/src/providers/ecologits/model_mappings.py and
src/src/providers/ecologits/calculate_impact.py), as a shallow embedding.

Python strings are embedded as `List Char`; Python dicts as assignment
lists with last-write-wins lookup (`dlookup`), which is exactly the
observable semantics of repeated `d[k] = v` assignments followed by
`d.get`/`d[k]`.
-/

/-- Embedding of a Python string. -/
abbrev PyStr := List Char

/-- Python `s.lower()` (the model names involved are ASCII). -/
def pyLower (s : PyStr) : PyStr := s.map Char.toLower

/-- Python `pat in s`: substring containment (an empty pattern is contained
in every string, as in Python). -/
def pyContains : PyStr → PyStr → Bool
  | [], pat => pat.isEmpty
  | s@(_ :: rest), pat => pat.isPrefixOf s || pyContains rest pat

/-- Fuel-driven worker for `pyReplace`; the fuel starts at `s.length`,
which bounds the number of steps since each step consumes at least one
character of `s`. -/
def pyReplaceAux (pat rep : PyStr) : Nat → PyStr → PyStr
  | _, [] => []
  | 0, s => s
  | fuel + 1, s@(c :: rest) =>
    if pat ≠ [] ∧ pat.isPrefixOf s then
      rep ++ pyReplaceAux pat rep fuel (s.drop pat.length)
    else
      c :: pyReplaceAux pat rep fuel rest

/-- Python `s.replace(pat, rep)` for a non-empty pattern: replace every
non-overlapping occurrence, scanning left to right.  (The code only ever
calls it with fixed non-empty literal patterns.) -/
def pyReplace (s pat rep : PyStr) : PyStr := pyReplaceAux pat rep s.length s

/-- Python `s.endswith(suffix)`. -/
def pyEndsWith (s suffix : PyStr) : Bool := suffix.isSuffixOf s

/-- Python-dict lookup over an assignment list: the value of the LAST
assignment whose key matches, i.e. last write wins. -/
def dlookup {α : Type} : List (PyStr × α) → PyStr → Option α
  | [], _ => none
  | kv :: rest, k =>
    match dlookup rest k with
    | some v => some v
    | none => if kv.1 = k then some kv.2 else none

/-- The Model Registry type: provider id → ordered list of canonical
model names (the shape of `ECOLOGITS_MODELS` in ecologits_models_list.py). -/
abbrev Registry := List (PyStr × List PyStr)

/-- The `base` variable of `_build_model_cache`'s "-latest" branch:
`model_name.replace('-latest', '')`. -/
def latestBase (model_name : PyStr) : PyStr :=
  pyReplace model_name ("-latest".toList) []

/-- The sequence of dict assignments `cache[provider_str][alias] = canonical`
performed by the inner loop body of `_build_model_cache` for one model,
in source order (model_mappings.py lines 23-59). -/
def aliasAssignments (provider_str model_name : PyStr) : List (PyStr × PyStr) :=
  [(model_name, model_name), (pyLower model_name, model_name)]
  ++ (if provider_str = "anthropic".toList then
        (if pyContains model_name ("claude-3-5-".toList) then
          [(pyReplace model_name ("claude-3-5-".toList) ("claude-3.5-".toList), model_name)]
        else [])
        ++ (if pyContains model_name ("claude-3-7-".toList) then
          [(pyReplace model_name ("claude-3-7-".toList) ("claude-3.7-".toList), model_name)]
        else [])
        ++ (if pyContains model_name ("-latest".toList) then
          [(latestBase model_name, model_name)]
          ++ (if pyContains (latestBase model_name) ("claude-3-5-".toList) then
            [(pyReplace (latestBase model_name) ("claude-3-5-".toList) ("claude-3.5-".toList),
              model_name)]
          else [])
          ++ (if pyContains (latestBase model_name) ("claude-3-7-".toList) then
            [(pyReplace (latestBase model_name) ("claude-3-7-".toList) ("claude-3.7-".toList),
              model_name)]
          else [])
        else [])
      else if provider_str = "openai".toList then
        (if model_name = "gpt-35-turbo".toList then
          [("gpt35-turbo".toList, model_name)]
        else [])
        ++ (if model_name = "gpt-3.5-turbo".toList then
          [("gpt-3.5".toList, model_name), ("gpt35-turbo".toList, model_name)]
        else [])
      else [])

/-- All assignments made into `cache[provider_str]` while looping over that
provider's model list. -/
def providerAssignments (provider_str : PyStr) (models : List PyStr) :
    List (PyStr × PyStr) :=
  models.flatMap (fun m => aliasAssignments provider_str m)

/-- `_build_model_cache` of model_mappings.py: per provider, the alias
table built from the registry (`cache[provider_str] = {}` then the inner
loop; a duplicated provider key would be reset and rebuilt, which
last-write-wins lookup on the outer list reproduces). -/
def _build_model_cache (registry : Registry) :
    List (PyStr × List (PyStr × PyStr)) :=
  registry.map (fun e => (e.1, providerAssignments e.1 e.2))

/-- `get_model_mapping` of model_mappings.py: exact match against the
provider's alias table first, then the lower-cased name, else `None`.
An unknown provider yields the empty table (`cache.get(provider, {})`). -/
def get_model_mapping (registry : Registry) (provider model_name : PyStr) :
    Option PyStr :=
  let provider_mappings := (dlookup (_build_model_cache registry) provider).getD []
  match dlookup provider_mappings model_name with
  | some v => some v
  | none => dlookup provider_mappings (pyLower model_name)

/-- `PROVIDER_KEYWORDS` of model_mappings.py, in declaration order. -/
def PROVIDER_KEYWORDS : List (PyStr × List PyStr) :=
  [("anthropic".toList, ["claude".toList]),
   ("google".toList, ["gemini".toList]),
   ("xai".toList, ["grok".toList]),
   ("mistralai".toList,
    ["mistral".toList, "codestral".toList, "devstral".toList, "magistral".toList,
     "ministral".toList, "pixtral".toList, "voxtral".toList]),
   ("cohere".toList, ["command".toList, "aya".toList]),
   ("openai".toList, [])]

/-- The nested loop of `detect_provider`: first provider (in table order)
one of whose keywords is contained in the lower-cased model name. -/
def firstMatch (model_lower : PyStr) : List (PyStr × List PyStr) → Option PyStr
  | [] => none
  | pk :: rest =>
    if pk.2.any (fun kw => pyContains model_lower kw) then some pk.1
    else firstMatch model_lower rest

/-- `detect_provider` of model_mappings.py: keyword scan, defaulting to
"openai". -/
def detect_provider (model_name : PyStr) : PyStr :=
  (firstMatch (pyLower model_name) PROVIDER_KEYWORDS).getD ("openai".toList)

/-- Modelled from the spec: the anthropic entry of the Model Registry
(§8's alias round-trip examples: dated and "-latest" claude names of the
"-3-5-" and "-3-7-" families, and one without a minor-version segment). -/
def anthropicModels : List PyStr :=
  ["claude-3-5-sonnet-20240620".toList, "claude-3-5-sonnet-latest".toList,
   "claude-3-7-sonnet-latest".toList, "claude-3-opus-latest".toList]

/-- Modelled from the spec: the openai entry of the Model Registry
("gpt-4" of §8, and the "gpt-35-turbo" / "gpt-3.5-turbo" pair whose
shorthand aliases §4.2 hardcodes). -/
def openaiModels : List PyStr :=
  ["gpt-4".toList, "gpt-4o".toList, "gpt-3.5-turbo".toList, "gpt-35-turbo".toList]

/-- Modelled from the spec: the generated Model Registry data module
`ecologits_models_list.py` is not under src/ (only its importer is).  A
representative static registry, faithful to the spec's Data Model (§3)
and its examples and scenarios (§8). -/
def ECOLOGITS_MODELS : Registry :=
  [("openai".toList, openaiModels),
   ("anthropic".toList, anthropicModels),
   ("google".toList, ["gemini-1.5-pro".toList, "gemini-1.5-flash".toList]),
   ("mistralai".toList, ["mistral-large-2411".toList]),
   ("cohere".toList, ["command-r".toList])]

/-- An impact value returned by the external estimator: either a plain
scalar or a `RangeValue` with `min`/`max` fields (ecologits'
`ecologits.utils.range_value.RangeValue`).  Numeric values are embedded
as rationals. -/
inductive ImpactValue where
  | scalar (v : ℚ)
  | range (lo hi : ℚ)

/-- `get_value` of calculate_impact.py: a `RangeValue` is reduced to the
midpoint of its bounds, a scalar is returned unchanged. -/
def get_value : ImpactValue → ℚ
  | .range lo hi => (lo + hi) / 2
  | .scalar v => v

/-- One phase (usage or embodied) of an estimator result: the three
impact categories, each carrying its `.value`. -/
structure PhaseImpacts where
  gwp : ImpactValue
  pe : ImpactValue
  adpe : ImpactValue

/-- The estimator result consumed by calculate_impact.py: the four
top-level `.value`s, and the optional `usage` / `embodied` breakdowns
(the script probes them with `hasattr`). -/
structure Impacts where
  gwp : ImpactValue
  pe : ImpactValue
  adpe : ImpactValue
  energy : ImpactValue
  usage : Option PhaseImpacts
  embodied : Option PhaseImpacts

/-- The external estimator `llm_impacts`, abstracted at the process
boundary: arguments (provider, model_name, output_token_count,
request_latency, electricity_mix_zone), returning a result or raising
with a message. -/
abbrev EstimatorFn :=
  PyStr → PyStr → Int → ℚ → Option PyStr → Except PyStr Impacts

/-- A `usage` / `embodied` sub-object of the success JSON. -/
structure PhaseJson where
  gwp_g : ℚ
  pe_mj : ℚ
  adpe_kgsbeq : ℚ

/-- The success JSON object printed by calculate_impact.py. -/
structure ResultJson where
  gwp_g : ℚ
  pe_mj : ℚ
  adpe_kgsbeq : ℚ
  energy_kwh : ℚ
  usage : PhaseJson
  embodied : PhaseJson
  model : PyStr
  input_tokens : Int
  output_tokens : Int
  total_tokens : Int
  latency : ℚ

/-- The error JSON object printed by calculate_impact.py on any failure. -/
structure ErrorJson where
  gwp_g : ℚ
  pe_mj : ℚ
  adpe_kgsbeq : ℚ
  energy_kwh : ℚ
  error : PyStr

/-- The single JSON object a run prints on stdout. -/
inductive OutputJson where
  | ok (r : ResultJson)
  | err (e : ErrorJson)

/-- Observable outcome of one run: the stdout JSON and the exit code. -/
structure ProcessResult where
  stdout : OutputJson
  exitCode : Nat

/-- The f-string `"Model '{model_name}' not found in EcoLogits repository"`. -/
def modelNotFoundMessage (model_name : PyStr) : PyStr :=
  "Model '".toList ++ model_name ++ "' not found in EcoLogits repository".toList

/-- The all-zero error JSON with a given message. -/
def zeroErrorJson (msg : PyStr) : ErrorJson :=
  { gwp_g := 0, pe_mj := 0, adpe_kgsbeq := 0, energy_kwh := 0, error := msg }

/-- `get_value` of a phase, defaulting to zero when the attribute is
absent (the `if hasattr(...) else 0` lines). -/
def phaseJson : Option PhaseImpacts → PhaseJson
  | some u =>
    { gwp_g := get_value u.gwp * 1000, pe_mj := get_value u.pe,
      adpe_kgsbeq := get_value u.adpe }
  | none => { gwp_g := 0, pe_mj := 0, adpe_kgsbeq := 0 }

/-- The main flow of calculate_impact.py after successful argument
parsing (lines 26-110): detect the provider, map the model name (a
`None` or empty mapping is falsy, hence the not-found branch and exit 1),
invoke the estimator, reduce each impact value with `get_value`, and
print one JSON object.  An estimator failure is caught by the outer
`except`, which prints the zero-valued error JSON and falls off the end
of the script (exit 0). -/
def calculate_impact (estimator : EstimatorFn) (registry : Registry)
    (input_token_count output_token_count : Int) (request_latency : ℚ)
    (model_name : PyStr) (electricity_mix_zone : Option PyStr) : ProcessResult :=
  let provider := detect_provider model_name
  match get_model_mapping registry provider model_name with
  | none =>
    { stdout := .err (zeroErrorJson (modelNotFoundMessage model_name)), exitCode := 1 }
  | some mapped_model_name =>
    if mapped_model_name.isEmpty then
      { stdout := .err (zeroErrorJson (modelNotFoundMessage model_name)), exitCode := 1 }
    else
      match estimator provider mapped_model_name output_token_count
          request_latency electricity_mix_zone with
      | .error e => { stdout := .err (zeroErrorJson e), exitCode := 0 }
      | .ok impacts =>
        { stdout := .ok
            { gwp_g := get_value impacts.gwp * 1000
              pe_mj := get_value impacts.pe
              adpe_kgsbeq := get_value impacts.adpe
              energy_kwh := get_value impacts.energy
              usage := phaseJson impacts.usage
              embodied := phaseJson impacts.embodied
              model := model_name
              input_tokens := input_token_count
              output_tokens := output_token_count
              total_tokens := input_token_count + output_token_count
              latency := request_latency },
          exitCode := 0 }

/-- A concrete estimator that always raises, for exercising the failure
paths. -/
def errEstimator : EstimatorFn := fun _ _ _ _ _ => .error ("estimator failed".toList)

/-- A concrete estimator result mixing ranges and scalars. -/
def sampleImpacts : Impacts :=
  { gwp := .range 1 3, pe := .scalar 2, adpe := .range 0 1, energy := .scalar 5,
    usage := none, embodied := none }

/-- A concrete estimator that always succeeds with `sampleImpacts`. -/
def okEstimator : EstimatorFn := fun _ _ _ _ _ => .ok sampleImpacts

/-! ### Dictionary and cache lemmas -/

theorem dlookup_eq_none_iff {α : Type} (l : List (PyStr × α)) (k : PyStr) :
    dlookup l k = none ↔ ∀ kv ∈ l, kv.1 ≠ k := by
  induction l with
  | nil => simp [dlookup]
  | cons kv rest ih =>
    simp only [dlookup]
    cases h : dlookup rest k with
    | some v =>
      constructor
      · intro hc
        exact absurd hc (by simp)
      · intro hall
        have hnone : dlookup rest k = none :=
          ih.mpr (fun kv' h' => hall kv' (List.mem_cons_of_mem _ h'))
        rw [hnone] at h
        exact absurd h (by simp)
    | none =>
      have hr := ih.mp h
      constructor
      · intro hif kv' hkv'
        rcases List.mem_cons.mp hkv' with rfl | hmem
        · intro hk
          rw [if_pos hk] at hif
          exact Option.some_ne_none _ hif
        · exact hr kv' hmem
      · intro hall
        rw [if_neg (hall kv (List.mem_cons_self _ _))]

theorem dlookup_mem {α : Type} {l : List (PyStr × α)} {k : PyStr} {v : α}
    (h : dlookup l k = some v) : (k, v) ∈ l := by
  induction l with
  | nil => simp [dlookup] at h
  | cons kv rest ih =>
    simp only [dlookup] at h
    cases hr : dlookup rest k with
    | some v' =>
      rw [hr] at h
      cases h
      exact List.mem_cons_of_mem _ (ih hr)
    | none =>
      rw [hr] at h
      by_cases hk : kv.1 = k
      · rw [if_pos hk] at h
        cases h
        rw [← hk]
        simp
      · rw [if_neg hk] at h
        exact absurd h (by simp)

theorem dlookup_consistent {α : Type} {l : List (PyStr × α)} {k : PyStr} {c : α}
    (hmem : (k, c) ∈ l) (hcons : ∀ kv ∈ l, kv.1 = k → kv.2 = c) :
    dlookup l k = some c := by
  induction l with
  | nil => cases hmem
  | cons kv rest ih =>
    simp only [dlookup]
    cases hr : dlookup rest k with
    | some v =>
      have hv := hcons (k, v) (List.mem_cons_of_mem _ (dlookup_mem hr)) rfl
      exact congrArg some hv
    | none =>
      rcases List.mem_cons.mp hmem with heq | hmem'
      · rw [if_pos (by rw [← heq])]
        rw [← heq]
      · exact absurd rfl ((dlookup_eq_none_iff rest k).mp hr (k, c) hmem')

theorem build_cache_dlookup (registry : Registry) (p : PyStr) :
    dlookup (_build_model_cache registry) p =
      Option.map (fun ms => providerAssignments p ms) (dlookup registry p) := by
  induction registry with
  | nil => rfl
  | cons e rest ih =>
    simp only [_build_model_cache, List.map_cons, dlookup] at ih ⊢
    rw [ih]
    cases hr : dlookup rest p with
    | some ms => simp
    | none =>
      by_cases hp : e.1 = p
      · subst hp
        simp
      · simp [hp]

theorem aliasAssignments_snd {p m : PyStr} {av : PyStr × PyStr}
    (h : av ∈ aliasAssignments p m) : av.2 = m := by
  unfold aliasAssignments at h
  split_ifs at h <;> simp_all <;> aesop

theorem providerAssignments_snd_mem {p : PyStr} {models : List PyStr}
    {av : PyStr × PyStr} (h : av ∈ providerAssignments p models) :
    av.2 ∈ models := by
  unfold providerAssignments at h
  obtain ⟨m, hm, hav⟩ := List.mem_flatMap.mp h
  rw [aliasAssignments_snd hav]
  exact hm

theorem get_model_mapping_not_key (registry : Registry) (p x : PyStr)
    (h : ∀ e ∈ registry, e.1 ≠ p) :
    get_model_mapping registry p x = none := by
  have hnone : dlookup registry p = none := (dlookup_eq_none_iff registry p).mpr h
  simp only [get_model_mapping, build_cache_dlookup, hnone, Option.map_none',
    Option.getD_none]
  rfl

theorem modelNotFoundMessage_ne_nil (mn : PyStr) : modelNotFoundMessage mn ≠ [] := by
  intro hc
  rw [modelNotFoundMessage, List.append_eq_nil, List.append_eq_nil] at hc
  exact absurd hc.1.1 (by decide)

theorem reverse_take_of_append {b s m : PyStr} (hb : b ++ s = m) :
    m.reverse.take s.length = s.reverse := by
  subst hb
  rw [List.reverse_append]
  rw [show s.length = s.reverse.length from (List.length_reverse s).symm]
  exact List.take_left _ _

theorem firstMatch_eq_none (ml : PyStr) (l : List (PyStr × List PyStr))
    (h : ∀ pk ∈ l, ∀ kw ∈ pk.2, pyContains ml kw = false) :
    firstMatch ml l = none := by
  induction l with
  | nil => rfl
  | cons pk rest ih =>
    have hany : pk.2.any (fun kw => pyContains ml kw) = false := by
      rw [List.any_eq_false]
      intro kw hkw
      simp [h pk (List.mem_cons_self _ _) kw hkw]
    simp only [firstMatch, hany, Bool.false_eq_true, if_false]
    exact ih (fun pk' h' kw hkw => h pk' (List.mem_cons_of_mem _ h') kw hkw)

/-! ### Claim theorems -/

/-- C1: for every provider `p` in the Model Registry and every canonical
model name `m` listed under `p`, `get_model_mapping p m` returns `m` and
`get_model_mapping p (lower m)` returns `m`: every canonical name is its
own identity alias and lowercase alias in its provider's alias table, and
lookup resolves both back to the canonical name. -/
theorem canonical_names_resolve_to_themselves (p : PyStr) (ms : List PyStr)
    (hp : (p, ms) ∈ ECOLOGITS_MODELS) (m : PyStr) (hm : m ∈ ms) :
    get_model_mapping ECOLOGITS_MODELS p m = some m ∧
    get_model_mapping ECOLOGITS_MODELS p (pyLower m) = some m :=
  (by decide :
      ∀ e ∈ ECOLOGITS_MODELS, ∀ m' ∈ e.2,
        get_model_mapping ECOLOGITS_MODELS e.1 m' = some m' ∧
        get_model_mapping ECOLOGITS_MODELS e.1 (pyLower m') = some m')
    (p, ms) hp m hm

/-- Witness for C1 at the anthropic provider and "claude-3-5-sonnet-latest". -/
theorem canonical_names_resolve_to_themselves_witness :
    (("anthropic".toList, anthropicModels) ∈ ECOLOGITS_MODELS) ∧
    ("claude-3-5-sonnet-latest".toList ∈ anthropicModels) ∧
    (get_model_mapping ECOLOGITS_MODELS ("anthropic".toList)
        ("claude-3-5-sonnet-latest".toList) =
        some ("claude-3-5-sonnet-latest".toList) ∧
      get_model_mapping ECOLOGITS_MODELS ("anthropic".toList)
        (pyLower ("claude-3-5-sonnet-latest".toList)) =
        some ("claude-3-5-sonnet-latest".toList)) :=
  ⟨by decide, by decide,
    canonical_names_resolve_to_themselves ("anthropic".toList) anthropicModels
      (by decide) ("claude-3-5-sonnet-latest".toList) (by decide)⟩

/-- C2: whenever `get_model_mapping p x` returns a (non-absent) name `c`,
`c` is a canonical model name listed in the Model Registry under provider
`p` — the mapper never fabricates or guesses a canonical name.  Proved for
every registry. -/
theorem mapper_never_fabricates (registry : Registry) (p x c : PyStr)
    (h : get_model_mapping registry p x = some c) :
    ∃ ms, (p, ms) ∈ registry ∧ c ∈ ms := by
  simp only [get_model_mapping] at h
  cases hc : dlookup (_build_model_cache registry) p with
  | none =>
    rw [hc] at h
    simp [dlookup] at h
  | some pa =>
    rw [hc] at h
    simp only [Option.getD_some] at h
    have hpa : (p, pa) ∈ _build_model_cache registry := dlookup_mem hc
    simp only [_build_model_cache] at hpa
    obtain ⟨e, he, hfe⟩ := List.mem_map.mp hpa
    have hep : e.1 = p := congrArg Prod.fst hfe
    have hpa2 : providerAssignments e.1 e.2 = pa := congrArg Prod.snd hfe
    have hmem : (x, c) ∈ pa ∨ (pyLower x, c) ∈ pa := by
      cases hdx : dlookup pa x with
      | some v =>
        rw [hdx] at h
        cases h
        exact Or.inl (dlookup_mem hdx)
      | none =>
        rw [hdx] at h
        exact Or.inr (dlookup_mem h)
    have hcm : c ∈ e.2 := by
      rcases hmem with hm | hm <;>
        · rw [← hpa2] at hm
          simpa using providerAssignments_snd_mem hm
    refine ⟨e.2, ?_, hcm⟩
    rw [← hep]
    simpa using he

/-- Witness for C2: "claude-3.5-sonnet" maps to a name listed under
anthropic. -/
theorem mapper_never_fabricates_witness :
    (get_model_mapping ECOLOGITS_MODELS ("anthropic".toList)
      ("claude-3.5-sonnet".toList) = some ("claude-3-5-sonnet-latest".toList)) ∧
    ∃ ms, ("anthropic".toList, ms) ∈ ECOLOGITS_MODELS ∧
      "claude-3-5-sonnet-latest".toList ∈ ms :=
  ⟨by decide,
    mapper_never_fabricates ECOLOGITS_MODELS ("anthropic".toList)
      ("claude-3.5-sonnet".toList) ("claude-3-5-sonnet-latest".toList) (by decide)⟩

/-- C3: a canonical anthropic name containing a hyphen-joined minor-version
segment of the covered patterns (a "-3-5-" or "-3-7-" segment) is also
reached by the name with that segment replaced by the dot-joined form
("-3.5-" or "-3.7-"), which resolves to the same canonical name. -/
theorem dot_variant_alias_resolves (m : PyStr) (hm : m ∈ anthropicModels) :
    (pyContains m ("-3-5-".toList) = true →
      get_model_mapping ECOLOGITS_MODELS ("anthropic".toList)
        (pyReplace m ("-3-5-".toList) ("-3.5-".toList)) = some m) ∧
    (pyContains m ("-3-7-".toList) = true →
      get_model_mapping ECOLOGITS_MODELS ("anthropic".toList)
        (pyReplace m ("-3-7-".toList) ("-3.7-".toList)) = some m) :=
  (by decide :
      ∀ m' ∈ anthropicModels,
        (pyContains m' ("-3-5-".toList) = true →
          get_model_mapping ECOLOGITS_MODELS ("anthropic".toList)
            (pyReplace m' ("-3-5-".toList) ("-3.5-".toList)) = some m') ∧
        (pyContains m' ("-3-7-".toList) = true →
          get_model_mapping ECOLOGITS_MODELS ("anthropic".toList)
            (pyReplace m' ("-3-7-".toList) ("-3.7-".toList)) = some m'))
    m hm

/-- Witness for C3 at "claude-3-5-sonnet-20240620". -/
theorem dot_variant_alias_resolves_witness :
    ("claude-3-5-sonnet-20240620".toList ∈ anthropicModels) ∧
    (pyContains ("claude-3-5-sonnet-20240620".toList) ("-3-5-".toList) = true) ∧
    get_model_mapping ECOLOGITS_MODELS ("anthropic".toList)
      (pyReplace ("claude-3-5-sonnet-20240620".toList) ("-3-5-".toList)
        ("-3.5-".toList)) = some ("claude-3-5-sonnet-20240620".toList) :=
  ⟨by decide, by decide,
    (dot_variant_alias_resolves ("claude-3-5-sonnet-20240620".toList)
      (by decide)).1 (by decide)⟩

/-- C4: a canonical anthropic name `m` ending in a "-latest" suffix is
reached by `b`, the name with only that trailing suffix removed, which
resolves to the full unstripped `m`; and when `b` contains a "-3-5-" or
"-3-7-" segment, the dot-joined variant of `b` also resolves to `m`. -/
theorem latest_suffix_alias_resolves (m b : PyStr) (hm : m ∈ anthropicModels)
    (hb : b ++ "-latest".toList = m) :
    get_model_mapping ECOLOGITS_MODELS ("anthropic".toList) b = some m ∧
    (pyContains b ("-3-5-".toList) = true →
      get_model_mapping ECOLOGITS_MODELS ("anthropic".toList)
        (pyReplace b ("-3-5-".toList) ("-3.5-".toList)) = some m) ∧
    (pyContains b ("-3-7-".toList) = true →
      get_model_mapping ECOLOGITS_MODELS ("anthropic".toList)
        (pyReplace b ("-3-7-".toList) ("-3.7-".toList)) = some m) := by
  have hcases : m = "claude-3-5-sonnet-20240620".toList ∨
      m = "claude-3-5-sonnet-latest".toList ∨
      m = "claude-3-7-sonnet-latest".toList ∨
      m = "claude-3-opus-latest".toList := by
    simpa [anthropicModels] using hm
  rcases hcases with rfl | rfl | rfl | rfl
  · exact absurd (reverse_take_of_append hb) (by decide)
  · have hb' : b = "claude-3-5-sonnet".toList := by
      have h2 : b ++ "-latest".toList =
          "claude-3-5-sonnet".toList ++ "-latest".toList := by
        rw [hb]
        decide
      exact List.append_cancel_right h2
    subst hb'
    refine ⟨by decide, fun _ => by decide, fun hc => absurd hc (by decide)⟩
  · have hb' : b = "claude-3-7-sonnet".toList := by
      have h2 : b ++ "-latest".toList =
          "claude-3-7-sonnet".toList ++ "-latest".toList := by
        rw [hb]
        decide
      exact List.append_cancel_right h2
    subst hb'
    refine ⟨by decide, fun hc => absurd hc (by decide), fun _ => by decide⟩
  · have hb' : b = "claude-3-opus".toList := by
      have h2 : b ++ "-latest".toList =
          "claude-3-opus".toList ++ "-latest".toList := by
        rw [hb]
        decide
      exact List.append_cancel_right h2
    subst hb'
    refine ⟨by decide, fun hc => absurd hc (by decide),
      fun hc => absurd hc (by decide)⟩

/-- Witness for C4 at "claude-3-5-sonnet-latest". -/
theorem latest_suffix_alias_resolves_witness :
    ("claude-3-5-sonnet-latest".toList ∈ anthropicModels) ∧
    ("claude-3-5-sonnet".toList ++ "-latest".toList =
      "claude-3-5-sonnet-latest".toList) ∧
    (get_model_mapping ECOLOGITS_MODELS ("anthropic".toList)
        ("claude-3-5-sonnet".toList) = some ("claude-3-5-sonnet-latest".toList) ∧
      (pyContains ("claude-3-5-sonnet".toList) ("-3-5-".toList) = true →
        get_model_mapping ECOLOGITS_MODELS ("anthropic".toList)
          (pyReplace ("claude-3-5-sonnet".toList) ("-3-5-".toList)
            ("-3.5-".toList)) = some ("claude-3-5-sonnet-latest".toList)) ∧
      (pyContains ("claude-3-5-sonnet".toList) ("-3-7-".toList) = true →
        get_model_mapping ECOLOGITS_MODELS ("anthropic".toList)
          (pyReplace ("claude-3-5-sonnet".toList) ("-3-7-".toList)
            ("-3.7-".toList)) = some ("claude-3-5-sonnet-latest".toList))) :=
  ⟨by decide, by decide,
    latest_suffix_alias_resolves ("claude-3-5-sonnet-latest".toList)
      ("claude-3-5-sonnet".toList) (by decide) (by decide)⟩

/-- C5: for every provider id `p` that is not a key of the Model Registry
and every model name `x`, `get_model_mapping p x` returns absent — an
unknown provider is treated as having an empty alias table.  Proved for
every registry. -/
theorem unknown_provider_maps_to_none (registry : Registry) (p x : PyStr)
    (h : ∀ e ∈ registry, e.1 ≠ p) :
    get_model_mapping registry p x = none :=
  get_model_mapping_not_key registry p x h

/-- Witness for C5: the provider "xai" is not a Registry key. -/
theorem unknown_provider_maps_to_none_witness :
    (∀ e ∈ ECOLOGITS_MODELS, e.1 ≠ "xai".toList) ∧
    get_model_mapping ECOLOGITS_MODELS ("xai".toList) ("grok-2".toList) = none :=
  ⟨by decide,
    unknown_provider_maps_to_none ECOLOGITS_MODELS ("xai".toList)
      ("grok-2".toList) (by decide)⟩

/-- C6: `detect_provider` is a total function, and for every input string
whose lower-cased form contains no keyword of any provider in the Provider
Keyword Table, it returns the designated default provider "openai" (the
provider with the empty keyword list). -/
theorem detect_provider_defaults_to_openai (model_name : PyStr)
    (h : ∀ pk ∈ PROVIDER_KEYWORDS, ∀ kw ∈ pk.2,
      pyContains (pyLower model_name) kw = false) :
    detect_provider model_name = "openai".toList := by
  unfold detect_provider
  rw [firstMatch_eq_none _ _ h]
  rfl

/-- Witness for C6 at "some-unknown-model-xyz". -/
theorem detect_provider_defaults_to_openai_witness :
    (∀ pk ∈ PROVIDER_KEYWORDS, ∀ kw ∈ pk.2,
      pyContains (pyLower ("some-unknown-model-xyz".toList)) kw = false) ∧
    detect_provider ("some-unknown-model-xyz".toList) = "openai".toList :=
  ⟨by decide,
    detect_provider_defaults_to_openai ("some-unknown-model-xyz".toList) (by decide)⟩

/-- C7: when the detected provider has no alias matching the model name,
the process emits exactly one JSON object whose four numeric fields are
all zero and whose error field is a non-empty string, and exits with
status 1. -/
theorem model_not_found_emits_zero_json_exit_one (estimator : EstimatorFn)
    (registry : Registry) (itc otc : Int) (lat : ℚ) (mn : PyStr)
    (zone : Option PyStr)
    (h : get_model_mapping registry (detect_provider mn) mn = none) :
    ∃ ej : ErrorJson,
      calculate_impact estimator registry itc otc lat mn zone =
        { stdout := .err ej, exitCode := 1 } ∧
      ej.gwp_g = 0 ∧ ej.pe_mj = 0 ∧ ej.adpe_kgsbeq = 0 ∧ ej.energy_kwh = 0 ∧
      ej.error ≠ [] := by
  refine ⟨zeroErrorJson (modelNotFoundMessage mn), ?_, rfl, rfl, rfl, rfl,
    modelNotFoundMessage_ne_nil mn⟩
  simp only [calculate_impact, h]

/-- Witness for C7: end-to-end scenario 3 with "totally-unknown-model". -/
theorem model_not_found_emits_zero_json_exit_one_witness :
    (get_model_mapping ECOLOGITS_MODELS
      (detect_provider ("totally-unknown-model".toList))
      ("totally-unknown-model".toList) = none) ∧
    ∃ ej : ErrorJson,
      calculate_impact errEstimator ECOLOGITS_MODELS 1 1 (1 / 10)
          ("totally-unknown-model".toList) none =
        { stdout := .err ej, exitCode := 1 } ∧
      ej.gwp_g = 0 ∧ ej.pe_mj = 0 ∧ ej.adpe_kgsbeq = 0 ∧ ej.energy_kwh = 0 ∧
      ej.error ≠ [] :=
  ⟨by decide,
    model_not_found_emits_zero_json_exit_one errEstimator ECOLOGITS_MODELS 1 1
      (1 / 10) ("totally-unknown-model".toList) none (by decide)⟩

/-- C8: when the estimator fails after a successful (non-empty) model
mapping, the failure is caught at the outermost level, the process emits a
JSON object with the four numeric fields zero and error set to the
failure's message, and exits with status 0. -/
theorem estimator_failure_emits_zero_json_exit_zero (estimator : EstimatorFn)
    (registry : Registry) (itc otc : Int) (lat : ℚ) (mn c e : PyStr)
    (zone : Option PyStr)
    (hmap : get_model_mapping registry (detect_provider mn) mn = some c)
    (hc : c ≠ [])
    (hest : estimator (detect_provider mn) c otc lat zone = .error e) :
    calculate_impact estimator registry itc otc lat mn zone =
      { stdout := .err (zeroErrorJson e), exitCode := 0 } ∧
    (zeroErrorJson e).gwp_g = 0 ∧ (zeroErrorJson e).pe_mj = 0 ∧
    (zeroErrorJson e).adpe_kgsbeq = 0 ∧ (zeroErrorJson e).energy_kwh = 0 ∧
    (zeroErrorJson e).error = e := by
  have hce : c.isEmpty = false := by
    cases c with
    | nil => exact absurd rfl hc
    | cons a t => rfl
  refine ⟨?_, rfl, rfl, rfl, rfl, rfl⟩
  simp only [calculate_impact, hmap, hce, hest]
  rfl

/-- Witness for C8: a failing estimator on the mapped "gpt-4". -/
theorem estimator_failure_emits_zero_json_exit_zero_witness :
    (get_model_mapping ECOLOGITS_MODELS (detect_provider ("gpt-4".toList))
      ("gpt-4".toList) = some ("gpt-4".toList)) ∧
    ("gpt-4".toList ≠ ([] : PyStr)) ∧
    (errEstimator (detect_provider ("gpt-4".toList)) ("gpt-4".toList) 50 (6 / 5)
      none = .error ("estimator failed".toList)) ∧
    (calculate_impact errEstimator ECOLOGITS_MODELS 100 50 (6 / 5)
        ("gpt-4".toList) none =
      { stdout := .err (zeroErrorJson ("estimator failed".toList)),
        exitCode := 0 } ∧
      (zeroErrorJson ("estimator failed".toList)).gwp_g = 0 ∧
      (zeroErrorJson ("estimator failed".toList)).pe_mj = 0 ∧
      (zeroErrorJson ("estimator failed".toList)).adpe_kgsbeq = 0 ∧
      (zeroErrorJson ("estimator failed".toList)).energy_kwh = 0 ∧
      (zeroErrorJson ("estimator failed".toList)).error =
        "estimator failed".toList) :=
  ⟨by decide, by decide, rfl,
    estimator_failure_emits_zero_json_exit_zero errEstimator ECOLOGITS_MODELS
      100 50 (6 / 5) ("gpt-4".toList) ("gpt-4".toList)
      ("estimator failed".toList) none (by decide) (by decide) rfl⟩

/-- C9: `get_value` reduces a min/max range to its midpoint (min+max)/2 and
leaves a scalar unchanged, and on the success path the calling code emits
`get_value` of each of gwp (converted to grams), pe, adpe and energy in the
output JSON. -/
theorem range_value_reduced_to_midpoint (estimator : EstimatorFn)
    (registry : Registry) (itc otc : Int) (lat : ℚ) (mn c : PyStr)
    (zone : Option PyStr) (impacts : Impacts)
    (hmap : get_model_mapping registry (detect_provider mn) mn = some c)
    (hc : c ≠ [])
    (hest : estimator (detect_provider mn) c otc lat zone = .ok impacts) :
    (∀ lo hi : ℚ, get_value (.range lo hi) = (lo + hi) / 2) ∧
    (∀ v : ℚ, get_value (.scalar v) = v) ∧
    ∃ rj : ResultJson,
      (calculate_impact estimator registry itc otc lat mn zone).stdout = .ok rj ∧
      rj.gwp_g = get_value impacts.gwp * 1000 ∧
      rj.pe_mj = get_value impacts.pe ∧
      rj.adpe_kgsbeq = get_value impacts.adpe ∧
      rj.energy_kwh = get_value impacts.energy := by
  have hce : c.isEmpty = false := by
    cases c with
    | nil => exact absurd rfl hc
    | cons a t => rfl
  refine ⟨fun _ _ => rfl, fun _ => rfl,
    ⟨{ gwp_g := get_value impacts.gwp * 1000, pe_mj := get_value impacts.pe,
       adpe_kgsbeq := get_value impacts.adpe,
       energy_kwh := get_value impacts.energy,
       usage := phaseJson impacts.usage, embodied := phaseJson impacts.embodied,
       model := mn, input_tokens := itc, output_tokens := otc,
       total_tokens := itc + otc, latency := lat },
     ?_, rfl, rfl, rfl, rfl⟩⟩
  simp only [calculate_impact, hmap, hce, hest]
  rfl

/-- Witness for C9: a succeeding estimator on the mapped "gpt-4" with a
range-valued gwp. -/
theorem range_value_reduced_to_midpoint_witness :
    (get_model_mapping ECOLOGITS_MODELS (detect_provider ("gpt-4".toList))
      ("gpt-4".toList) = some ("gpt-4".toList)) ∧
    ("gpt-4".toList ≠ ([] : PyStr)) ∧
    (okEstimator (detect_provider ("gpt-4".toList)) ("gpt-4".toList) 50 (6 / 5)
      none = .ok sampleImpacts) ∧
    ((∀ lo hi : ℚ, get_value (.range lo hi) = (lo + hi) / 2) ∧
      (∀ v : ℚ, get_value (.scalar v) = v) ∧
      ∃ rj : ResultJson,
        (calculate_impact okEstimator ECOLOGITS_MODELS 100 50 (6 / 5)
          ("gpt-4".toList) none).stdout = .ok rj ∧
        rj.gwp_g = get_value sampleImpacts.gwp * 1000 ∧
        rj.pe_mj = get_value sampleImpacts.pe ∧
        rj.adpe_kgsbeq = get_value sampleImpacts.adpe ∧
        rj.energy_kwh = get_value sampleImpacts.energy) :=
  ⟨by decide, by decide, rfl,
    range_value_reduced_to_midpoint okEstimator ECOLOGITS_MODELS 100 50 (6 / 5)
      ("gpt-4".toList) ("gpt-4".toList) none sampleImpacts (by decide)
      (by decide) rfl⟩

/-- C10: a model name whose lower-cased form contains "grok" but neither
"claude" nor "gemini" is detected as provider "xai"; and when "xai" is not
a key of the Model Registry, every "xai" lookup returns absent, so such a
request ends in the model-not-found error path (zero JSON, exit 1). -/
theorem grok_models_hit_not_found_path (estimator : EstimatorFn)
    (registry : Registry) (itc otc : Int) (lat : ℚ) (x : PyStr)
    (zone : Option PyStr)
    (hg : pyContains (pyLower x) ("grok".toList) = true)
    (hcl : pyContains (pyLower x) ("claude".toList) = false)
    (hge : pyContains (pyLower x) ("gemini".toList) = false)
    (hxai : ∀ e ∈ registry, e.1 ≠ "xai".toList) :
    detect_provider x = "xai".toList ∧
    (∀ y : PyStr, get_model_mapping registry ("xai".toList) y = none) ∧
    calculate_impact estimator registry itc otc lat x zone =
      { stdout := .err (zeroErrorJson (modelNotFoundMessage x)), exitCode := 1 } := by
  have hdet : detect_provider x = "xai".toList := by
    have hg' := hg
    have hcl' := hcl
    have hge' := hge
    simp at hg' hcl' hge'
    simp [detect_provider, firstMatch, PROVIDER_KEYWORDS, hg', hcl', hge']
  have hnone : get_model_mapping registry (detect_provider x) x = none := by
    rw [hdet]
    exact get_model_mapping_not_key registry _ x hxai
  refine ⟨hdet, fun y => get_model_mapping_not_key registry _ y hxai, ?_⟩
  simp only [calculate_impact, hnone]

/-- Witness for C10 at "Grok-4" against the Registry (which has no "xai"
key). -/
theorem grok_models_hit_not_found_path_witness :
    (pyContains (pyLower ("Grok-4".toList)) ("grok".toList) = true) ∧
    (pyContains (pyLower ("Grok-4".toList)) ("claude".toList) = false) ∧
    (pyContains (pyLower ("Grok-4".toList)) ("gemini".toList) = false) ∧
    (∀ e ∈ ECOLOGITS_MODELS, e.1 ≠ "xai".toList) ∧
    (detect_provider ("Grok-4".toList) = "xai".toList ∧
      (∀ y : PyStr, get_model_mapping ECOLOGITS_MODELS ("xai".toList) y = none) ∧
      calculate_impact errEstimator ECOLOGITS_MODELS 1 1 (1 / 10)
          ("Grok-4".toList) none =
        { stdout := .err (zeroErrorJson (modelNotFoundMessage ("Grok-4".toList))),
          exitCode := 1 }) :=
  ⟨by decide, by decide, by decide, by decide,
    grok_models_hit_not_found_path errEstimator ECOLOGITS_MODELS 1 1 (1 / 10)
      ("Grok-4".toList) none (by decide) (by decide) (by decide) (by decide)⟩
